import Mathlib

/-!
Verification development for the PDF asset handler
(`src/sdk/src/asset_handlers/pdf_io.rs` of c2pa-rs).

The handler's external collaborators — the PDF container accessor (`Pdf`,
trait `C2paPdf`) and the byte patcher (`patch_bytes`) — are not part of the
source under review; they are modelled from the specification's interface
description (spec §6, §4.1, §2).  All functions of `pdf_io.rs` itself are
translated directly from the source.

Bytes are modelled as `List Nat`; streams as the byte buffer read from them
(every entry point rewinds its input stream before reading). An output
stream is a buffer together with a write position.
-/

abbrev Bytes := List Nat

/-- Modelled from the spec: the block kinds of `HashObjectPositions`
(`crate::asset_io::HashBlockObjectType`); `pdf_io.rs` only uses `Cai`. -/
inductive HashBlockObjectType where
  | cai
  | xmp
  | other
deriving DecidableEq, Repr

/-- `HashObjectPositions` from `crate::asset_io`: a (byte offset, length,
block kind) triple describing where manifest bytes reside in the
serialized document. -/
structure HashObjectPositions where
  offset : Nat
  length : Nat
  htype : HashBlockObjectType
deriving DecidableEq, Repr

/-- The error taxonomy of `crate::Error` restricted to the variants used by
`pdf_io.rs` (spec §7): `InvalidAsset`, `JumbfNotFound`, `NotImplemented`,
`PdfReadError`, and the byte patcher's failures. -/
inductive Error where
  | invalidAsset : String → Error
  | jumbfNotFound : Error
  | notImplemented : String → Error
  | pdfReadError : Error
  | patchNotFound : Error
  | patchAmbiguous : Error
deriving DecidableEq, Repr

/-- An output stream: its current content and its write position.
`rewind` moves the position to the start; `write_all` overwrites from the
current position (spec §5: overwrite semantics, never append-at-position). -/
structure OutStream where
  content : Bytes
  pos : Nat
deriving DecidableEq, Repr

def OutStream.rewind (s : OutStream) : OutStream :=
  ⟨s.content, 0⟩

def OutStream.write_all (s : OutStream) (b : Bytes) : OutStream :=
  ⟨s.content.take s.pos ++ b ++ s.content.drop (s.pos + b.length), s.pos + b.length⟩

/-- Modelled from the spec: the Container Accessor's in-memory `Document`
(spec §3): a list of manifest attachments (each an opaque byte sequence,
in document order) plus the remaining document content. -/
structure Pdf where
  attachments : List Bytes
  body : Bytes
deriving DecidableEq, Repr

/-- Modelled from the spec: deterministic serialization of the attachment
list — each attachment is stored length-prefixed (spec §3: serialization is
deterministic for a given in-memory state). -/
def serializeAttachments : List Bytes → Bytes
  | [] => []
  | a :: rest => a.length :: a ++ serializeAttachments rest

/-- Modelled from the spec: `serialize(doc) -> bytes` (spec §6), called
`save_to` in the source's call sites: attachment count, then the
length-prefixed attachments, then the body. -/
def Pdf.save_to (d : Pdf) : Bytes :=
  d.attachments.length :: serializeAttachments d.attachments ++ d.body

/-- Modelled from the spec: decoding of the attachment region, the inverse
of `serializeAttachments`; fails on malformed input. -/
def parseAttachments : Nat → Bytes → Option (List Bytes × Bytes)
  | 0, rest => some ([], rest)
  | _ + 1, [] => none
  | n + 1, len :: rest =>
    if len ≤ rest.length then
      match parseAttachments n (rest.drop len) with
      | none => none
      | some (atts, body) => some (rest.take len :: atts, body)
    else none

/-- Modelled from the spec: `parse(bytes) -> Document | ParseError`
(spec §6); `Pdf::from_bytes` / `Pdf::from_reader` in the source's call
sites (the latter reads the whole rewound stream first). -/
def Pdf.from_bytes (b : Bytes) : Except String Pdf :=
  match b with
  | [] => .error "failed to parse the PDF"
  | n :: rest =>
    match parseAttachments n rest with
    | none => .error "failed to parse the PDF"
    | some (atts, body) => .ok ⟨atts, body⟩

/-- Byte offsets of each attachment's raw bytes inside the serialized form:
walking the serialized attachment region that starts at `pos`, each
attachment's bytes sit one length-prefix byte past its block start. -/
def attachmentOffsets : List Bytes → Nat → List (Bytes × Nat)
  | [], _ => []
  | a :: rest, pos => (a, pos + 1) :: attachmentOffsets rest (pos + 1 + a.length)

/-- Modelled from the spec: `list_manifest_attachments(doc) ->
List<(bytes, offset)> | Error` (spec §6), the trait method
`C2paPdf::read_manifest_bytes`: `None` if no manifest attachment exists;
otherwise one `(bytes, offset)` entry per attachment found (spec §4.1).
The model's listing never fails. -/
def Pdf.read_manifest_bytes (d : Pdf) : Except String (Option (List (Bytes × Nat))) :=
  .ok (if d.attachments.isEmpty then none else some (attachmentOffsets d.attachments 1))

/-- Modelled from the spec: `add_manifest_attachment(doc, bytes)`
(spec §6), `C2paPdf::write_manifest_as_embedded_file` at the source's call
sites: adds a new manifest attachment carrying the supplied bytes. -/
def Pdf.write_manifest_as_embedded_file (d : Pdf) (bytes : Bytes) : Pdf :=
  ⟨d.attachments ++ [bytes], d.body⟩

/-- Modelled from the spec: `remove_manifest_attachment(doc)` (spec §6),
`C2paPdf::remove_manifest_bytes` at the source's call site: deletes the
manifest attachment(s); the body is untouched. -/
def Pdf.remove_manifest_bytes (d : Pdf) : Pdf :=
  ⟨[], d.body⟩

/-- The positions at which `needle` occurs as a contiguous sub-sequence of
`buffer`. -/
def occurrences (buffer needle : Bytes) : List Nat :=
  (List.range (buffer.length + 1 - needle.length)).filter
    fun i => (buffer.drop i).take needle.length == needle

/-- The byte patcher's failures (spec §2: "erroring if the needle is
missing or ambiguous"). -/
inductive PatchError where
  | notFound
  | ambiguous
deriving DecidableEq, Repr

/-- Conversion of a patcher failure into the handler's error type (the
source's `?` operator on `patch_bytes`). -/
def PatchError.toError : PatchError → Error
  | .notFound => .patchNotFound
  | .ambiguous => .patchAmbiguous

/-- Modelled from the spec: the Byte Patcher `patch(buffer, needle,
replacement)` (spec §2, §6, `crate::utils::patch::patch_bytes`): finds one
occurrence of `needle` and substitutes `replacement`, erroring if the
needle is missing or ambiguous. The in-place mutation is modelled by
returning the patched buffer. -/
def patch_bytes (buffer needle replacement : Bytes) : Except PatchError Bytes :=
  match occurrences buffer needle with
  | [] => .error .notFound
  | [i] => .ok (buffer.take i ++ replacement ++ buffer.drop (i + needle.length))
  | _ => .error .ambiguous

/-- `WRITE_NOT_IMPLEMENTED` (pdf_io.rs line 27). -/
def WRITE_NOT_IMPLEMENTED : String :=
  "PDF write functionality will be added in a future release"

/-- The fixed message of the multi-manifest refusal
(pdf_io.rs lines 174-176). -/
def MULTI_MANIFEST_MESSAGE : String :=
  "c2pa-rs only supports reading PDFs with one manifest"

/-- `PdfIO::read_manifest_bytes` (pdf_io.rs lines 163-178): listing error →
`PdfReadError`; no listing → `JumbfNotFound`; exactly one entry → its
bytes; otherwise → `NotImplemented`. -/
def PdfIo.read_manifest_bytes (pdf : Pdf) : Except Error Bytes :=
  match Pdf.read_manifest_bytes pdf with
  | .error _ => .error .pdfReadError
  | .ok none => .error .jumbfNotFound
  | .ok (some bytes) =>
    match bytes with
    | [(b, _)] => .ok b
    | _ => .error (.notImplemented MULTI_MANIFEST_MESSAGE)

/-- `PdfIO::read_cai` (pdf_io.rs lines 32-36): rewind, parse (parse failure
→ `InvalidAsset`), then `read_manifest_bytes`. -/
def PdfIo.read_cai (asset_reader : Bytes) : Except Error Bytes :=
  match Pdf.from_bytes asset_reader with
  | .error e => .error (.invalidAsset e)
  | .ok pdf => PdfIo.read_manifest_bytes pdf

/-- The manifest-exists branch of `PdfIO::write_cai` (pdf_io.rs lines
65-72), as a function of the listing the container accessor reported:
`manifests.first()` (`JumbfNotFound` when the list is empty), discard the
reported offset, patch the raw input buffer, rewind the output stream and
write the patched buffer. -/
def PdfIo.write_cai_manifests_branch (pdf_bytes : Bytes) (manifests : List (Bytes × Nat))
    (store_bytes : Bytes) (out0 : OutStream) : Except Error Unit × OutStream :=
  match manifests with
  | [] => (.error .jumbfNotFound, out0)
  | (current_manifest, _) :: _ =>
    match patch_bytes pdf_bytes current_manifest store_bytes with
    | .error e => (.error e.toError, out0)
    | .ok patched => (.ok (), (out0.rewind).write_all patched)

/-- `PdfIO::write_cai` (pdf_io.rs lines 52-85): read the whole input,
parse, list attachments; if some exist, patch the first one's bytes in
place in the raw buffer; otherwise install a fresh attachment, re-serialize
and write the result. -/
def PdfIo.write_cai (input_stream store_bytes : Bytes) (out0 : OutStream) :
    Except Error Unit × OutStream :=
  match Pdf.from_bytes input_stream with
  | .error e => (.error (.invalidAsset e), out0)
  | .ok pdf =>
    match Pdf.read_manifest_bytes pdf with
    | .error e => (.error (.invalidAsset e), out0)
    | .ok (some manifests) =>
      PdfIo.write_cai_manifests_branch input_stream manifests store_bytes out0
    | .ok none =>
      let pdf2 := Pdf.write_manifest_as_embedded_file pdf store_bytes
      let out_buf := Pdf.save_to pdf2
      (.ok (), (out0.rewind).write_all out_buf)

/-- `PdfIO::get_object_locations_from_stream` (pdf_io.rs lines 87-129): if
a manifest exists, report the first one's offset and length; otherwise
install a one-byte placeholder `[0]`, re-serialize, re-parse the serialized
output fresh, list again and report. -/
def PdfIo.get_object_locations_from_stream (input_stream : Bytes) :
    Except Error (List HashObjectPositions) :=
  match Pdf.from_bytes input_stream with
  | .error e => .error (.invalidAsset e)
  | .ok pdf =>
    match Pdf.read_manifest_bytes pdf with
    | .error e => .error (.invalidAsset e)
    | .ok (some manifests) =>
      match manifests with
      | [] => .error .jumbfNotFound
      | (current_manifest, offset) :: _ =>
        .ok [⟨offset, current_manifest.length, .cai⟩]
    | .ok none =>
      let pdf2 := Pdf.write_manifest_as_embedded_file pdf [0]
      let out := Pdf.save_to pdf2
      match Pdf.from_bytes out with
      | .error e => .error (.invalidAsset e)
      | .ok pdf3 =>
        match Pdf.read_manifest_bytes pdf3 with
        | .error e => .error (.invalidAsset e)
        | .ok none => .error .jumbfNotFound
        | .ok (some manifests) =>
          match manifests with
          | [] => .error .jumbfNotFound
          | (current_manifest, offset) :: _ =>
            .ok [⟨offset, current_manifest.length, .cai⟩]

/-- `PdfIO::remove_cai_store_from_stream` (pdf_io.rs lines 131-159): if an
attachment exists, remove it and write the full re-serialization (after
rewinding the output); otherwise copy the input to the output unchanged
(`std::io::copy`, at the output's current position). -/
def PdfIo.remove_cai_store_from_stream (input_stream : Bytes) (out0 : OutStream) :
    Except Error Unit × OutStream :=
  match Pdf.from_bytes input_stream with
  | .error e => (.error (.invalidAsset e), out0)
  | .ok pdf =>
    match Pdf.read_manifest_bytes pdf with
    | .error e => (.error (.invalidAsset e), out0)
    | .ok (some _) =>
      let pdf2 := Pdf.remove_manifest_bytes pdf
      (.ok (), (out0.rewind).write_all (Pdf.save_to pdf2))
    | .ok none =>
      (.ok (), out0.write_all input_stream)

/-- `PdfIO::save_cai_store` (pdf_io.rs lines 210-212): always
`NotImplemented` with the fixed message; arguments unused. -/
def PdfIo.save_cai_store (_asset_path : String) (_store_bytes : Bytes) : Except Error Unit :=
  .error (.notImplemented WRITE_NOT_IMPLEMENTED)

/-- `PdfIO::get_object_locations` (pdf_io.rs lines 214-216): always
`NotImplemented` with the fixed message; argument unused. -/
def PdfIo.get_object_locations (_asset_path : String) :
    Except Error (List HashObjectPositions) :=
  .error (.notImplemented WRITE_NOT_IMPLEMENTED)

/-- `PdfIO::remove_cai_store` (pdf_io.rs lines 218-220): always
`NotImplemented` with the fixed message; argument unused. -/
def PdfIo.remove_cai_store (_asset_path : String) : Except Error Unit :=
  .error (.notImplemented WRITE_NOT_IMPLEMENTED)

/-- `ComposedManifestRef::compose_manifest` for `PdfIO` (pdf_io.rs lines
231-236): identity passthrough of the manifest bytes. -/
def PdfIo.compose_manifest (manifest_data : Bytes) (_format : String) : Except Error Bytes :=
  .ok manifest_data

/-! ### Model sanity: serialization round-trips through the parser. -/

theorem parseAttachments_serialize (atts : List Bytes) (body : Bytes) :
    parseAttachments atts.length (serializeAttachments atts ++ body) = some (atts, body) := by
  induction atts with
  | nil => rfl
  | cons a rest ih =>
    simp only [serializeAttachments, List.length_cons, List.cons_append, List.append_eq,
      List.append_assoc, parseAttachments]
    rw [if_pos (by simp)]
    rw [List.drop_left' (by simp), ih, List.take_left' (by simp)]

theorem from_bytes_save_to (d : Pdf) : Pdf.from_bytes (Pdf.save_to d) = .ok d := by
  obtain ⟨atts, body⟩ := d
  simp [Pdf.from_bytes, Pdf.save_to, parseAttachments_serialize]

example : Pdf.from_bytes [0] = .ok ⟨[], []⟩ := rfl
example : Pdf.from_bytes [1, 1, 5] = .ok ⟨[[5]], []⟩ := rfl
example : Pdf.from_bytes [2, 2, 7, 7, 1, 8] = .ok ⟨[[7, 7], [8]], []⟩ := rfl
example : PdfIo.read_cai [1, 1, 5] = .ok [5] := rfl
example : occurrences [1, 2, 7, 8, 9] [7, 8] = [2] := by decide

/-! ### Claim theorems -/

/-- Claim C7: for every document that parses successfully and contains
exactly one manifest attachment carrying bytes `B`, `read_cai` returns
exactly `B`. -/
theorem read_cai_single_manifest (input B : Bytes) (body : Bytes)
    (h : Pdf.from_bytes input = .ok ⟨[B], body⟩) :
    PdfIo.read_cai input = .ok B := by
  simp [PdfIo.read_cai, h, PdfIo.read_manifest_bytes, Pdf.read_manifest_bytes,
    attachmentOffsets]

theorem read_cai_single_manifest_witness :
    Pdf.from_bytes [1, 1, 5] = .ok ⟨[[5]], []⟩ ∧ PdfIo.read_cai [1, 1, 5] = .ok [5] :=
  ⟨rfl, read_cai_single_manifest [1, 1, 5] [5] [] rfl⟩

/-- Claim C9: every path-based entry point of the write family
(`save_cai_store`, `get_object_locations`, `remove_cai_store`) fails with
`NotImplemented` carrying the same fixed message `WRITE_NOT_IMPLEMENTED`,
for every path and every byte input; the functions do nothing else (they
are pure error returns, ignoring their arguments). -/
theorem path_based_write_family_not_implemented (p : String) (b : Bytes) :
    PdfIo.save_cai_store p b = .error (.notImplemented WRITE_NOT_IMPLEMENTED) ∧
    PdfIo.get_object_locations p = .error (.notImplemented WRITE_NOT_IMPLEMENTED) ∧
    PdfIo.remove_cai_store p = .error (.notImplemented WRITE_NOT_IMPLEMENTED) :=
  ⟨rfl, rfl, rfl⟩

/-- Claim C10: in the existing-manifest branch of `write_cai`, the result
depends only on the manifest bytes the locator reported, never on the
reported offsets: two listings with equal byte components (and arbitrary,
possibly different, offsets) produce identical results. The source binds
the offset to `_` and finds the patch site by content search. -/
theorem write_cai_existing_branch_offset_irrelevant (input store : Bytes) (out0 : OutStream)
    (ms1 ms2 : List (Bytes × Nat)) (h : ms1.map Prod.fst = ms2.map Prod.fst) :
    PdfIo.write_cai_manifests_branch input ms1 store out0 =
      PdfIo.write_cai_manifests_branch input ms2 store out0 := by
  cases ms1 with
  | nil =>
    cases ms2 with
    | nil => rfl
    | cons b t => simp at h
  | cons a t =>
    cases ms2 with
    | nil => simp at h
    | cons b t2 =>
      obtain ⟨a1, a2⟩ := a
      obtain ⟨b1, b2⟩ := b
      simp only [List.map_cons, List.cons.injEq] at h
      obtain ⟨h1, -⟩ := h
      subst h1
      rfl

theorem write_cai_existing_branch_offset_irrelevant_witness :
    [([7], 0)].map Prod.fst = [([7], 42)].map Prod.fst ∧
      PdfIo.write_cai_manifests_branch [1, 7, 3] [([7], 0)] [9] ⟨[], 0⟩ =
        PdfIo.write_cai_manifests_branch [1, 7, 3] [([7], 42)] [9] ⟨[], 0⟩ :=
  ⟨by decide,
    write_cai_existing_branch_offset_irrelevant [1, 7, 3] [9] ⟨[], 0⟩ [([7], 0)] [([7], 42)]
      (by decide)⟩

/-- Claim C2: in the existing-manifest branch of `write_cai`, when the
prior manifest byte sequence cannot be found verbatim in the raw input
buffer (zero occurrences), the operation returns the patch-not-found error
and the output stream is returned unchanged — it never falls back to the
structural re-serialization branch, which is only reachable when the
listing reported no manifest at all. -/
theorem write_cai_patch_not_found_is_fatal (pdf_bytes M1 : Bytes) (o : Nat)
    (rest : List (Bytes × Nat)) (store : Bytes) (out0 : OutStream)
    (h : occurrences pdf_bytes M1 = []) :
    PdfIo.write_cai_manifests_branch pdf_bytes ((M1, o) :: rest) store out0 =
      (.error .patchNotFound, out0) := by
  simp [PdfIo.write_cai_manifests_branch, patch_bytes, h, PatchError.toError]

theorem write_cai_patch_not_found_is_fatal_witness :
    occurrences [1, 2, 3] [9] = [] ∧
      PdfIo.write_cai_manifests_branch [1, 2, 3] [([9], 0)] [4] ⟨[5], 1⟩ =
        (.error .patchNotFound, ⟨[5], 1⟩) :=
  ⟨by decide, write_cai_patch_not_found_is_fatal [1, 2, 3] [9] 0 [] [4] ⟨[5], 1⟩ (by decide)⟩

/-- Claim C6: for every document that parses and has no manifest
attachment, `remove_cai_store_from_stream` copies the input to the output
byte-for-byte: on a fresh output stream the final content is exactly the
input (removal of nothing is an identity transform). -/
theorem remove_cai_no_manifest_identity (input : Bytes) (d : Pdf)
    (h1 : Pdf.from_bytes input = .ok d) (h2 : d.attachments = []) :
    PdfIo.remove_cai_store_from_stream input ⟨[], 0⟩ = (.ok (), ⟨input, input.length⟩) := by
  simp [PdfIo.remove_cai_store_from_stream, h1, Pdf.read_manifest_bytes, h2,
    OutStream.write_all]

theorem remove_cai_no_manifest_identity_witness :
    Pdf.from_bytes [0, 4, 5] = .ok ⟨[], [4, 5]⟩ ∧
      PdfIo.remove_cai_store_from_stream [0, 4, 5] ⟨[], 0⟩ = (.ok (), ⟨[0, 4, 5], 3⟩) :=
  ⟨rfl, remove_cai_no_manifest_identity [0, 4, 5] ⟨[], [4, 5]⟩ rfl rfl⟩

/-- Claim C3: on a document that parses and contains no manifest,
`get_object_locations_from_stream` installs the one-byte placeholder,
re-serializes, re-parses, and always returns the single-element location of
that placeholder — it never returns an empty list and never errors (in
particular it never raises `JumbfNotFound`). -/
theorem locate_no_manifest_reports_placeholder (input : Bytes) (d : Pdf)
    (h1 : Pdf.from_bytes input = .ok d) (h2 : d.attachments = []) :
    PdfIo.get_object_locations_from_stream input = .ok [⟨2, 1, .cai⟩] := by
  obtain ⟨atts, body⟩ := d
  simp only at h2
  subst h2
  simp [PdfIo.get_object_locations_from_stream, h1, Pdf.read_manifest_bytes,
    Pdf.write_manifest_as_embedded_file, from_bytes_save_to, attachmentOffsets]

theorem locate_no_manifest_reports_placeholder_witness :
    Pdf.from_bytes [0] = .ok ⟨[], []⟩ ∧
      PdfIo.get_object_locations_from_stream [0] = .ok [⟨2, 1, .cai⟩] :=
  ⟨rfl, locate_no_manifest_reports_placeholder [0] ⟨[], []⟩ rfl rfl⟩

/-- Claim C5: round-trip — on a document that parses and has no manifest
attachment, `write_cai` with manifest bytes `M` succeeds, and `read_cai`
on the produced output returns exactly `M`. -/
theorem write_then_read_roundtrip (input : Bytes) (d : Pdf) (M : Bytes)
    (h1 : Pdf.from_bytes input = .ok d) (h2 : d.attachments = []) :
    (PdfIo.write_cai input M ⟨[], 0⟩).1 = .ok () ∧
      PdfIo.read_cai (PdfIo.write_cai input M ⟨[], 0⟩).2.content = .ok M := by
  obtain ⟨atts, body⟩ := d
  simp only at h2
  subst h2
  have hw : PdfIo.write_cai input M ⟨[], 0⟩ =
      (.ok (), ⟨Pdf.save_to ⟨[M], body⟩, (Pdf.save_to ⟨[M], body⟩).length⟩) := by
    simp [PdfIo.write_cai, h1, Pdf.read_manifest_bytes, Pdf.write_manifest_as_embedded_file,
      OutStream.rewind, OutStream.write_all]
  rw [hw]
  refine ⟨rfl, ?_⟩
  simp [PdfIo.read_cai, from_bytes_save_to, PdfIo.read_manifest_bytes,
    Pdf.read_manifest_bytes, attachmentOffsets]

theorem write_then_read_roundtrip_witness :
    Pdf.from_bytes [0] = .ok ⟨[], []⟩ ∧
      (PdfIo.write_cai [0] [5, 6] ⟨[], 0⟩).1 = .ok () ∧
      PdfIo.read_cai (PdfIo.write_cai [0] [5, 6] ⟨[], 0⟩).2.content = .ok [5, 6] :=
  ⟨rfl,
    (write_then_read_roundtrip [0] ⟨[], []⟩ [5, 6] rfl rfl).1,
    (write_then_read_roundtrip [0] ⟨[], []⟩ [5, 6] rfl rfl).2⟩

/-- Claim C8: for every document that parses (the model's attachment
listing always succeeds), `read_cai` fails with `JumbfNotFound` exactly
when the document has zero manifest attachments, and fails with
`NotImplemented` (with the fixed multi-manifest message) exactly when it
has two or more. -/
theorem read_cai_error_taxonomy (input : Bytes) (d : Pdf)
    (h1 : Pdf.from_bytes input = .ok d) :
    (PdfIo.read_cai input = .error .jumbfNotFound ↔ d.attachments = []) ∧
      (PdfIo.read_cai input = .error (.notImplemented MULTI_MANIFEST_MESSAGE) ↔
        2 ≤ d.attachments.length) := by
  obtain ⟨atts, body⟩ := d
  match atts with
  | [] =>
    simp [PdfIo.read_cai, h1, PdfIo.read_manifest_bytes, Pdf.read_manifest_bytes]
  | [a] =>
    simp [PdfIo.read_cai, h1, PdfIo.read_manifest_bytes, Pdf.read_manifest_bytes,
      attachmentOffsets]
  | a :: b :: t =>
    simp [PdfIo.read_cai, h1, PdfIo.read_manifest_bytes, Pdf.read_manifest_bytes,
      attachmentOffsets]

theorem read_cai_error_taxonomy_witness :
    (PdfIo.read_cai [0] = .error .jumbfNotFound ↔ (Pdf.mk [] []).attachments = []) ∧
      (PdfIo.read_cai [0] = .error (.notImplemented MULTI_MANIFEST_MESSAGE) ↔
        2 ≤ (Pdf.mk [] []).attachments.length) :=
  read_cai_error_taxonomy [0] ⟨[], []⟩ rfl

/-- Claim C1 counterexample: the document `[2, 2, 7, 7, 1, 8]` parses to a
document whose manifest discovery yields two attachments (`[7, 7]` and
`[8]`), yet `write_cai` succeeds (patching the first attachment) and
`get_object_locations_from_stream` succeeds (reporting the first
attachment), so it is false that every manifest-bearing operation fails on
a multi-manifest document. -/
theorem multi_manifest_not_all_fail_counterexample :
    Pdf.from_bytes [2, 2, 7, 7, 1, 8] = .ok ⟨[[7, 7], [8]], []⟩ ∧
      (PdfIo.write_cai [2, 2, 7, 7, 1, 8] [9, 9] ⟨[], 0⟩).1 = .ok () ∧
      PdfIo.get_object_locations_from_stream [2, 2, 7, 7, 1, 8] = .ok [⟨2, 2, .cai⟩] :=
  ⟨rfl, rfl, rfl⟩

/-- Claim C1 (amended): on a document whose discovery yields more than one
manifest, only the read path refuses — `read_cai` fails with
`NotImplemented` — while `get_object_locations_from_stream` reports the
first attachment found and `write_cai` proceeds into the in-place patch
branch on the first attachment found, neither failing on account of the
multiplicity. -/
theorem multi_manifest_amended (input : Bytes) (a b : Bytes) (rest : List Bytes) (body : Bytes)
    (store : Bytes) (out0 : OutStream)
    (h : Pdf.from_bytes input = .ok ⟨a :: b :: rest, body⟩) :
    PdfIo.read_cai input = .error (.notImplemented MULTI_MANIFEST_MESSAGE) ∧
      PdfIo.get_object_locations_from_stream input = .ok [⟨2, a.length, .cai⟩] ∧
      PdfIo.write_cai input store out0 =
        PdfIo.write_cai_manifests_branch input (attachmentOffsets (a :: b :: rest) 1)
          store out0 := by
  refine ⟨?_, ?_, ?_⟩
  · simp [PdfIo.read_cai, h, PdfIo.read_manifest_bytes, Pdf.read_manifest_bytes,
      attachmentOffsets]
  · simp [PdfIo.get_object_locations_from_stream, h, Pdf.read_manifest_bytes,
      attachmentOffsets]
  · simp [PdfIo.write_cai, h, Pdf.read_manifest_bytes]

theorem multi_manifest_amended_witness :
    PdfIo.read_cai [2, 2, 7, 7, 1, 8] = .error (.notImplemented MULTI_MANIFEST_MESSAGE) ∧
      PdfIo.get_object_locations_from_stream [2, 2, 7, 7, 1, 8] = .ok [⟨2, 2, .cai⟩] ∧
      PdfIo.write_cai [2, 2, 7, 7, 1, 8] [9, 9] ⟨[], 0⟩ =
        PdfIo.write_cai_manifests_branch [2, 2, 7, 7, 1, 8]
          (attachmentOffsets [[7, 7], [8]] 1) [9, 9] ⟨[], 0⟩ :=
  multi_manifest_amended [2, 2, 7, 7, 1, 8] [7, 7] [8] [] [] [9, 9] ⟨[], 0⟩ rfl

/-- Claim C4: in-place patch frame effect — for a document already
containing exactly one manifest `M1`, located at offset `O` (the unique
occurrence of `M1` in the raw buffer), writing `M2` with
`len(M2) = len(M1)` succeeds and produces output of the same length whose
bytes in the window `[O, O + len(M2))` equal `M2` and whose every byte
outside that window equals the corresponding byte of the input. -/
theorem write_cai_inplace_patch_frame (input : Bytes) (d : Pdf) (M1 : Bytes) (O : Nat)
    (M2 : Bytes) (i j : Nat)
    (h1 : Pdf.from_bytes input = .ok d)
    (h2 : Pdf.read_manifest_bytes d = .ok (some [(M1, O)]))
    (h3 : occurrences input M1 = [O])
    (h4 : M2.length = M1.length)
    (hi : i < O ∨ O + M2.length ≤ i)
    (hj : j < M2.length) :
    (PdfIo.write_cai input M2 ⟨[], 0⟩).1 = .ok () ∧
      (PdfIo.write_cai input M2 ⟨[], 0⟩).2.content.length = input.length ∧
      (PdfIo.write_cai input M2 ⟨[], 0⟩).2.content[O + j]? = M2[j]? ∧
      (PdfIo.write_cai input M2 ⟨[], 0⟩).2.content[i]? = input[i]? := by
  have hmem : O ∈ occurrences input M1 := by rw [h3]; exact List.mem_singleton.mpr rfl
  have hrange : O < input.length + 1 - M1.length :=
    List.mem_range.mp (List.mem_filter.mp hmem).1
  have hO : O + M1.length ≤ input.length := by omega
  have hA : (List.take O input).length = O := by rw [List.length_take]; omega
  have hout : PdfIo.write_cai input M2 ⟨[], 0⟩ =
      (.ok (), ⟨List.take O input ++ M2 ++ List.drop (O + M1.length) input,
        (List.take O input ++ M2 ++ List.drop (O + M1.length) input).length⟩) := by
    simp [PdfIo.write_cai, h1, h2, PdfIo.write_cai_manifests_branch, patch_bytes, h3,
      OutStream.rewind, OutStream.write_all]
  rw [hout]
  refine ⟨rfl, ?_, ?_, ?_⟩
  · simp only [List.length_append, hA, List.length_drop]
    omega
  · rw [List.getElem?_append_left (by simp only [List.length_append, hA]; omega),
      List.getElem?_append_right (by rw [hA]; omega), hA, Nat.add_sub_cancel_left]
  · rcases hi with hlt | hge
    · rw [List.getElem?_append_left (by simp only [List.length_append, hA]; omega),
        List.getElem?_append_left (by rw [hA]; omega), List.getElem?_take_of_lt hlt]
    · rw [List.getElem?_append_right (by simp only [List.length_append, hA]; omega)]
      simp only [List.length_append, hA, List.getElem?_drop]
      have hidx : O + M1.length + (i - (O + M2.length)) = i := by omega
      rw [hidx]

theorem write_cai_inplace_patch_frame_witness :
    (PdfIo.write_cai [1, 2, 7, 8, 9] [5, 6] ⟨[], 0⟩).1 = .ok () ∧
      (PdfIo.write_cai [1, 2, 7, 8, 9] [5, 6] ⟨[], 0⟩).2.content.length =
        [1, 2, 7, 8, 9].length ∧
      (PdfIo.write_cai [1, 2, 7, 8, 9] [5, 6] ⟨[], 0⟩).2.content[2 + 0]? = [5, 6][0]? ∧
      (PdfIo.write_cai [1, 2, 7, 8, 9] [5, 6] ⟨[], 0⟩).2.content[0]? = [1, 2, 7, 8, 9][0]? :=
  write_cai_inplace_patch_frame [1, 2, 7, 8, 9] ⟨[[7, 8]], [9]⟩ [7, 8] 2 [5, 6] 0 0 rfl rfl
    (by decide) rfl (Or.inl (by decide)) (by decide)
